import Mathlib

/-!
Shallow embedding of the two telegraf input plugins of this repository:
the K30 CO2 reader (plugins/inputs/k30_reader/k30_reader.go) and the
Pine64 battery reader (plugins/inputs/pine_64/pine_64.go).

Byte strings are modelled as `List Nat` of byte values; Go float32 values
are represented by their IEEE-754 bit pattern (a `Nat` below 2^32), since
the decoder and encoder of the source only ever move bit patterns; Go
float64 arithmetic is modelled exactly over `ℚ` (the claims only exercise
exactly representable values). A Go runtime panic is an explicit `crash`
outcome, distinct from a returned error.
-/

namespace Telegraf

/-- Byte values of a string literal (ASCII in all inputs considered here). -/
def str2bytes (s : String) : List Nat := s.toList.map Char.toNat

/-- ASCII whitespace test used by bytes.Fields / strings.Fields on the
ASCII inputs relevant here: space, tab, newline, vertical tab, form feed,
carriage return. -/
def isSpace (b : Nat) : Bool :=
  b == 32 || b == 9 || b == 10 || b == 11 || b == 12 || b == 13

/-- bytes.Split and strings.Split of Go: cut the list around every
occurrence of the separator; the result always has one more element than
the number of separators. -/
def splitSep {α : Type} [DecidableEq α] (sep : α) : List α → List (List α)
  | [] => [[]]
  | b :: rest =>
    if b = sep then [] :: splitSep sep rest
    else
      match splitSep sep rest with
      | [] => [[b]]
      | s :: ss => (b :: s) :: ss

/-- Accumulator-passing helper for `goFields`. -/
def fieldsAux : List Nat → List Nat → List (List Nat)
  | [], acc => if acc = [] then [] else [acc.reverse]
  | b :: rest, acc =>
    if isSpace b then
      if acc = [] then fieldsAux rest []
      else acc.reverse :: fieldsAux rest []
    else fieldsAux rest (b :: acc)

/-- bytes.Fields / strings.Fields of Go on ASCII input: the maximal runs
of non-whitespace bytes, in order. -/
def goFields (l : List Nat) : List (List Nat) := fieldsAux l []

/-- Value of one ASCII hex digit, as encoding/hex accepts it
(0-9, a-f, A-F). -/
def hexVal (b : Nat) : Option Nat :=
  if 48 ≤ b ∧ b ≤ 57 then some (b - 48)
  else if 97 ≤ b ∧ b ≤ 102 then some (b - 97 + 10)
  else if 65 ≤ b ∧ b ≤ 70 then some (b - 65 + 10)
  else none

/-- hex.DecodeString of Go: decodes pairs of hex digits to bytes; fails
(non-nil error) on any non-hex byte and on odd input length. -/
def hexDecode : List Nat → Option (List Nat)
  | [] => some []
  | [_] => none
  | a :: b :: rest =>
    match hexVal a, hexVal b, hexDecode rest with
    | some x, some y, some r => some ((16 * x + y) :: r)
    | _, _, _ => none

/-- Float32frombytes of the source: binary.LittleEndian.Uint32 followed by
math.Float32frombits. The resulting float32 is represented by its bit
pattern, so this is the little-endian 32-bit value of the 4 bytes. -/
def Float32frombytes (bs : List Nat) : Nat :=
  match bs with
  | b0 :: b1 :: b2 :: b3 :: _ => b0 + 256 * b1 + 65536 * b2 + 16777216 * b3
  | _ => 0

/-- Float32bytes of the source: math.Float32bits followed by
binary.LittleEndian.PutUint32 into a 4-byte buffer. -/
def Float32bytes (f : Nat) : List Nat :=
  [f % 256, f / 256 % 256, f / 65536 % 256, f / 16777216 % 256]

/-- Result of running gatherk30: either a Go runtime panic (from
panic(err) on a hex error, or an out-of-range index) or the decoded
float32 bit pattern stored under the co2 field. -/
inductive K30Res where
  | crash (msg : String)
  | ok (bits : Nat)
deriving DecidableEq

/-- The loop of gatherk30: for x over ALL tokens, decode the token with
hex.DecodeString (panicking on error), and write the first decoded byte
into reading[x]; reading has length 4, so a fifth token makes the write
index out of range, and an empty decode makes data[0] out of range. -/
def k30Loop : List (List Nat) → Nat → List Nat → K30Res
  | [], _, reading => K30Res.ok (Float32frombytes reading)
  | tok :: rest, x, reading =>
    match hexDecode tok with
    | none => K30Res.crash "encoding/hex: invalid byte or length"
    | some [] => K30Res.crash "runtime error: index out of range"
    | some (b :: _) =>
      if x < 4 then k30Loop rest (x + 1) (reading.set x b)
      else K30Res.crash "runtime error: index out of range"

/-- gatherk30 of the source: split the raw command output on the colon
byte, take result[1] (a runtime panic when there is no colon), split it
into whitespace-delimited tokens, and run the decode loop over a 4-byte
buffer initialised to zero. -/
def gatherk30 (data : List Nat) : K30Res :=
  match splitSep 58 data with
  | _ :: seg :: _ => k30Loop (goFields seg) 0 [0, 0, 0, 0]
  | _ => K30Res.crash "runtime error: index out of range"

/-- Lower-case hex digit of a value below 16, as hex.EncodeToString emits. -/
def hexChar (n : Nat) : Nat := if n < 10 then 48 + n else 87 + n

/-- Two-digit lower-case hex token of one byte. -/
def hexPair (b : Nat) : List Nat := [hexChar (b / 16), hexChar (b % 16)]

/-- Format a byte list as 2-digit hex tokens joined by single spaces. -/
def hexSpaced : List Nat → List Nat
  | [] => []
  | [b] => hexPair b
  | b :: rest => hexPair b ++ 32 :: hexSpaced rest

/-- Encode a float32 bit pattern the way the round-trip property of the
spec describes: Float32bytes, each byte as a 2-digit hex token, tokens
joined by spaces, the whole prefixed with x and a colon. -/
def k30Encode (f : Nat) : List Nat := str2bytes "x:" ++ hexSpaced (Float32bytes f)

lemma splitSep_no_sep {α : Type} [DecidableEq α] {sep : α} :
    ∀ {l : List α}, sep ∉ l → splitSep sep l = [l] := by
  intro l
  induction l with
  | nil => intro _; rfl
  | cons b rest ih =>
    intro h
    simp only [List.mem_cons, not_or] at h
    have hb : ¬ b = sep := fun hh => h.1 hh.symm
    simp only [splitSep, if_neg hb, ih h.2]

lemma splitSep_append {α : Type} [DecidableEq α] {sep : α} {p : List α}
    (h : sep ∉ p) (r : List α) :
    splitSep sep (p ++ sep :: r) = p :: splitSep sep r := by
  induction p with
  | nil => simp [splitSep]
  | cons b pr ih =>
    simp only [List.mem_cons, not_or] at h
    have hb : ¬ b = sep := fun hh => h.1 hh.symm
    have hrec := ih h.2
    show splitSep sep (b :: (pr ++ sep :: r)) = (b :: pr) :: splitSep sep r
    simp only [splitSep, if_neg hb, hrec]

lemma hexVal_props {a x : Nat} (h : hexVal a = some x) :
    a ≠ 58 ∧ isSpace a = false ∧ x ≤ 15 := by
  unfold hexVal at h
  split_ifs at h with h1 h2 h3 <;>
    simp only [Option.some.injEq] at h <;>
    refine ⟨by omega, ?_, by omega⟩ <;>
    simp only [isSpace, Bool.or_eq_false_iff, beq_eq_false_iff_ne, ne_eq] <;>
    omega

lemma hexChar_val {m : Nat} (hm : m ≤ 15) : hexVal (hexChar m) = some m := by
  unfold hexChar hexVal
  split_ifs <;> first
    | (simp only [Option.some.injEq]; omega)
    | (exfalso; omega)

lemma goFields_four {a0 b0 a1 b1 a2 b2 a3 b3 : Nat}
    (s0 : isSpace a0 = false) (t0 : isSpace b0 = false)
    (s1 : isSpace a1 = false) (t1 : isSpace b1 = false)
    (s2 : isSpace a2 = false) (t2 : isSpace b2 = false)
    (s3 : isSpace a3 = false) (t3 : isSpace b3 = false) :
    goFields [a0, b0, 32, a1, b1, 32, a2, b2, 32, a3, b3] =
      [[a0, b0], [a1, b1], [a2, b2], [a3, b3]] := by
  have sp : isSpace 32 = true := rfl
  simp [goFields, fieldsAux, s0, t0, s1, t1, s2, t2, s3, t3, sp]

lemma goFields_five {a0 b0 a1 b1 a2 b2 a3 b3 a4 b4 : Nat}
    (s0 : isSpace a0 = false) (t0 : isSpace b0 = false)
    (s1 : isSpace a1 = false) (t1 : isSpace b1 = false)
    (s2 : isSpace a2 = false) (t2 : isSpace b2 = false)
    (s3 : isSpace a3 = false) (t3 : isSpace b3 = false)
    (s4 : isSpace a4 = false) (t4 : isSpace b4 = false) :
    goFields [a0, b0, 32, a1, b1, 32, a2, b2, 32, a3, b3, 32, a4, b4] =
      [[a0, b0], [a1, b1], [a2, b2], [a3, b3], [a4, b4]] := by
  have sp : isSpace 32 = true := rfl
  simp [goFields, fieldsAux, s0, t0, s1, t1, s2, t2, s3, t3, s4, t4, sp]

lemma k30Loop_four {a0 b0 a1 b1 a2 b2 a3 b3 x0 y0 x1 y1 x2 y2 x3 y3 : Nat}
    (h0 : hexVal a0 = some x0) (g0 : hexVal b0 = some y0)
    (h1 : hexVal a1 = some x1) (g1 : hexVal b1 = some y1)
    (h2 : hexVal a2 = some x2) (g2 : hexVal b2 = some y2)
    (h3 : hexVal a3 = some x3) (g3 : hexVal b3 = some y3) :
    k30Loop [[a0, b0], [a1, b1], [a2, b2], [a3, b3]] 0 [0, 0, 0, 0] =
      K30Res.ok (Float32frombytes
        [16 * x0 + y0, 16 * x1 + y1, 16 * x2 + y2, 16 * x3 + y3]) := by
  simp [k30Loop, hexDecode, h0, g0, h1, g1, h2, g2, h3, g3, List.set]

lemma k30Loop_five {a0 b0 a1 b1 a2 b2 a3 b3 a4 b4 x0 y0 x1 y1 x2 y2 x3 y3 x4 y4 : Nat}
    (h0 : hexVal a0 = some x0) (g0 : hexVal b0 = some y0)
    (h1 : hexVal a1 = some x1) (g1 : hexVal b1 = some y1)
    (h2 : hexVal a2 = some x2) (g2 : hexVal b2 = some y2)
    (h3 : hexVal a3 = some x3) (g3 : hexVal b3 = some y3)
    (h4 : hexVal a4 = some x4) (g4 : hexVal b4 = some y4) :
    k30Loop [[a0, b0], [a1, b1], [a2, b2], [a3, b3], [a4, b4]] 0 [0, 0, 0, 0] =
      K30Res.crash "runtime error: index out of range" := by
  simp [k30Loop, hexDecode, h0, g0, h1, g1, h2, g2, h3, g3, h4, g4, List.set]

lemma gatherk30_seg {pre payload : List Nat}
    (hp : (58 : Nat) ∉ pre) (hq : (58 : Nat) ∉ payload) :
    gatherk30 (pre ++ 58 :: payload) = k30Loop (goFields payload) 0 [0, 0, 0, 0] := by
  unfold gatherk30
  rw [splitSep_append hp, splitSep_no_sep hq]

lemma payload4_no_colon {a0 b0 a1 b1 a2 b2 a3 b3 x0 y0 x1 y1 x2 y2 x3 y3 : Nat}
    (h0 : hexVal a0 = some x0) (g0 : hexVal b0 = some y0)
    (h1 : hexVal a1 = some x1) (g1 : hexVal b1 = some y1)
    (h2 : hexVal a2 = some x2) (g2 : hexVal b2 = some y2)
    (h3 : hexVal a3 = some x3) (g3 : hexVal b3 = some y3) :
    (58 : Nat) ∉ [a0, b0, 32, a1, b1, 32, a2, b2, 32, a3, b3] := by
  intro hm
  simp only [List.mem_cons, List.not_mem_nil, or_false] at hm
  rcases hm with h | h | h | h | h | h | h | h | h | h | h <;>
    first
      | exact (hexVal_props h0).1 h.symm
      | exact (hexVal_props g0).1 h.symm
      | exact (hexVal_props h1).1 h.symm
      | exact (hexVal_props g1).1 h.symm
      | exact (hexVal_props h2).1 h.symm
      | exact (hexVal_props g2).1 h.symm
      | exact (hexVal_props h3).1 h.symm
      | exact (hexVal_props g3).1 h.symm
      | omega

/-- Core behavior of gatherk30 on a well-formed frame: any colon-free
prefix, then a colon, then exactly four 2-digit hex tokens separated by
single spaces; the result is the little-endian float32 of the four token
bytes. -/
lemma gatherk30_four_tokens {pre : List Nat}
    {a0 b0 a1 b1 a2 b2 a3 b3 x0 y0 x1 y1 x2 y2 x3 y3 : Nat}
    (hp : (58 : Nat) ∉ pre)
    (h0 : hexVal a0 = some x0) (g0 : hexVal b0 = some y0)
    (h1 : hexVal a1 = some x1) (g1 : hexVal b1 = some y1)
    (h2 : hexVal a2 = some x2) (g2 : hexVal b2 = some y2)
    (h3 : hexVal a3 = some x3) (g3 : hexVal b3 = some y3) :
    gatherk30 (pre ++ 58 :: [a0, b0, 32, a1, b1, 32, a2, b2, 32, a3, b3]) =
      K30Res.ok (Float32frombytes
        [16 * x0 + y0, 16 * x1 + y1, 16 * x2 + y2, 16 * x3 + y3]) := by
  rw [gatherk30_seg hp (payload4_no_colon h0 g0 h1 g1 h2 g2 h3 g3)]
  rw [goFields_four (hexVal_props h0).2.1 (hexVal_props g0).2.1
    (hexVal_props h1).2.1 (hexVal_props g1).2.1 (hexVal_props h2).2.1
    (hexVal_props g2).2.1 (hexVal_props h3).2.1 (hexVal_props g3).2.1]
  exact k30Loop_four h0 g0 h1 g1 h2 g2 h3 g3

lemma payload5_no_colon {a0 b0 a1 b1 a2 b2 a3 b3 a4 b4
    x0 y0 x1 y1 x2 y2 x3 y3 x4 y4 : Nat}
    (h0 : hexVal a0 = some x0) (g0 : hexVal b0 = some y0)
    (h1 : hexVal a1 = some x1) (g1 : hexVal b1 = some y1)
    (h2 : hexVal a2 = some x2) (g2 : hexVal b2 = some y2)
    (h3 : hexVal a3 = some x3) (g3 : hexVal b3 = some y3)
    (h4 : hexVal a4 = some x4) (g4 : hexVal b4 = some y4) :
    (58 : Nat) ∉ [a0, b0, 32, a1, b1, 32, a2, b2, 32, a3, b3, 32, a4, b4] := by
  intro hm
  simp only [List.mem_cons, List.not_mem_nil, or_false] at hm
  rcases hm with h | h | h | h | h | h | h | h | h | h | h | h | h | h <;>
    first
      | exact (hexVal_props h0).1 h.symm
      | exact (hexVal_props g0).1 h.symm
      | exact (hexVal_props h1).1 h.symm
      | exact (hexVal_props g1).1 h.symm
      | exact (hexVal_props h2).1 h.symm
      | exact (hexVal_props g2).1 h.symm
      | exact (hexVal_props h3).1 h.symm
      | exact (hexVal_props g3).1 h.symm
      | exact (hexVal_props h4).1 h.symm
      | exact (hexVal_props g4).1 h.symm
      | omega

/-- Behavior of gatherk30 when a fifth valid hex token follows the first
four: the loop body runs with x = 4 and the write reading[4] is out of
range, a Go runtime panic. -/
lemma gatherk30_five_tokens {pre : List Nat}
    {a0 b0 a1 b1 a2 b2 a3 b3 a4 b4 x0 y0 x1 y1 x2 y2 x3 y3 x4 y4 : Nat}
    (hp : (58 : Nat) ∉ pre)
    (h0 : hexVal a0 = some x0) (g0 : hexVal b0 = some y0)
    (h1 : hexVal a1 = some x1) (g1 : hexVal b1 = some y1)
    (h2 : hexVal a2 = some x2) (g2 : hexVal b2 = some y2)
    (h3 : hexVal a3 = some x3) (g3 : hexVal b3 = some y3)
    (h4 : hexVal a4 = some x4) (g4 : hexVal b4 = some y4) :
    gatherk30 (pre ++ 58 ::
        [a0, b0, 32, a1, b1, 32, a2, b2, 32, a3, b3, 32, a4, b4]) =
      K30Res.crash "runtime error: index out of range" := by
  rw [gatherk30_seg hp
    (payload5_no_colon h0 g0 h1 g1 h2 g2 h3 g3 h4 g4)]
  rw [goFields_five (hexVal_props h0).2.1 (hexVal_props g0).2.1
    (hexVal_props h1).2.1 (hexVal_props g1).2.1 (hexVal_props h2).2.1
    (hexVal_props g2).2.1 (hexVal_props h3).2.1 (hexVal_props g3).2.1
    (hexVal_props h4).2.1 (hexVal_props g4).2.1]
  exact k30Loop_five h0 g0 h1 g1 h2 g2 h3 g3 h4 g4

/-- C1: for every input of the form prefix, colon, then exactly four
whitespace-delimited 2-digit hex tokens, gatherk30 yields the float32
whose little-endian byte representation is the four token bytes; and the
round trip float32 -> Float32bytes -> 2-digit hex tokens joined by spaces
behind an x: prefix -> gatherk30 recovers the original bit pattern. -/
theorem C1_decode_and_roundtrip :
    (∀ (pre : List Nat) (a0 b0 a1 b1 a2 b2 a3 b3 x0 y0 x1 y1 x2 y2 x3 y3 : Nat),
      (58 : Nat) ∉ pre →
      hexVal a0 = some x0 → hexVal b0 = some y0 →
      hexVal a1 = some x1 → hexVal b1 = some y1 →
      hexVal a2 = some x2 → hexVal b2 = some y2 →
      hexVal a3 = some x3 → hexVal b3 = some y3 →
      gatherk30 (pre ++ 58 :: [a0, b0, 32, a1, b1, 32, a2, b2, 32, a3, b3]) =
        K30Res.ok (Float32frombytes
          [16 * x0 + y0, 16 * x1 + y1, 16 * x2 + y2, 16 * x3 + y3])) ∧
    (∀ f : Nat, f < 4294967296 → gatherk30 (k30Encode f) = K30Res.ok f) := by
  constructor
  · intro pre a0 b0 a1 b1 a2 b2 a3 b3 x0 y0 x1 y1 x2 y2 x3 y3
      hp h0 g0 h1 g1 h2 g2 h3 g3
    exact gatherk30_four_tokens hp h0 g0 h1 g1 h2 g2 h3 g3
  · intro f hf
    have hc0 : f % 256 < 256 := Nat.mod_lt _ (by omega)
    have hc1 : f / 256 % 256 < 256 := Nat.mod_lt _ (by omega)
    have hc2 : f / 65536 % 256 < 256 := Nat.mod_lt _ (by omega)
    have hc3 : f / 16777216 % 256 < 256 := Nat.mod_lt _ (by omega)
    have he : k30Encode f = [120] ++ 58 ::
        [hexChar (f % 256 / 16), hexChar (f % 256 % 16), 32,
         hexChar (f / 256 % 256 / 16), hexChar (f / 256 % 256 % 16), 32,
         hexChar (f / 65536 % 256 / 16), hexChar (f / 65536 % 256 % 16), 32,
         hexChar (f / 16777216 % 256 / 16), hexChar (f / 16777216 % 256 % 16)] := rfl
    rw [he]
    rw [gatherk30_four_tokens (by decide)
      (hexChar_val (by omega)) (hexChar_val (by omega))
      (hexChar_val (by omega)) (hexChar_val (by omega))
      (hexChar_val (by omega)) (hexChar_val (by omega))
      (hexChar_val (by omega)) (hexChar_val (by omega))]
    simp only [Float32frombytes, K30Res.ok.injEq]
    omega

/-- C1 witness: the round trip at the bit pattern of 1.0f, and the
four-token decode at the literal frame x:00 00 80 3f. -/
theorem C1_witness :
    gatherk30 (k30Encode 1065353216) = K30Res.ok 1065353216 ∧
    gatherk30 (str2bytes "x:00 00 80 3f") =
      K30Res.ok (Float32frombytes [0, 0, 128, 63]) := by
  constructor
  · exact C1_decode_and_roundtrip.2 1065353216 (by decide)
  · exact C1_decode_and_roundtrip.1 [120] 48 48 48 48 56 48 51 102
      0 0 0 0 8 0 3 15 (by decide)
      (by decide) (by decide) (by decide) (by decide)
      (by decide) (by decide) (by decide) (by decide)

/-- C2: what gatherk30 actually does on the malformed inputs the claim
covers. With no colon it panics (result[1] is out of range); with three
post-colon tokens it does NOT fail but zero-pads the 4-byte buffer and
produces a co2 value from partial data; with an invalid hex token it
panics via panic(err) rather than returning a recoverable error. -/
theorem C2_malformed_input_behavior :
    gatherk30 (str2bytes "no colon here") =
      K30Res.crash "runtime error: index out of range" ∧
    gatherk30 (str2bytes ":00 00 80") =
      K30Res.ok (Float32frombytes [0, 0, 128, 0]) ∧
    gatherk30 (str2bytes ":zz 00 00 00") =
      K30Res.crash "encoding/hex: invalid byte or length" := by
  refine ⟨by decide, by decide, by decide⟩

/-- C3 counterexample: on a post-colon segment with five hex tokens the
decode does not succeed with the first four tokens; the loop writes
reading[4], a runtime panic. The claim predicted co2 = 1.0 here. -/
theorem C3_counterexample :
    gatherk30 (str2bytes "desc: 00 00 80 3f 41") =
      K30Res.crash "runtime error: index out of range" := by
  decide

/-- C3 amended: gatherk30 uses the first decoded byte of each token in
token order and succeeds when EXACTLY four hex tokens follow the colon
(so the scenario with payload 00 00 80 3f decodes to the bits of 1.0f);
any fifth valid token makes the loop write out of the 4-byte buffer and
panic. -/
theorem C3_exactly_four_tokens :
    (∀ (pre : List Nat) (a0 b0 a1 b1 a2 b2 a3 b3 x0 y0 x1 y1 x2 y2 x3 y3 : Nat),
      (58 : Nat) ∉ pre →
      hexVal a0 = some x0 → hexVal b0 = some y0 →
      hexVal a1 = some x1 → hexVal b1 = some y1 →
      hexVal a2 = some x2 → hexVal b2 = some y2 →
      hexVal a3 = some x3 → hexVal b3 = some y3 →
      gatherk30 (pre ++ 58 :: [a0, b0, 32, a1, b1, 32, a2, b2, 32, a3, b3]) =
        K30Res.ok (Float32frombytes
          [16 * x0 + y0, 16 * x1 + y1, 16 * x2 + y2, 16 * x3 + y3])) ∧
    (∀ (pre : List Nat)
        (a0 b0 a1 b1 a2 b2 a3 b3 a4 b4 x0 y0 x1 y1 x2 y2 x3 y3 x4 y4 : Nat),
      (58 : Nat) ∉ pre →
      hexVal a0 = some x0 → hexVal b0 = some y0 →
      hexVal a1 = some x1 → hexVal b1 = some y1 →
      hexVal a2 = some x2 → hexVal b2 = some y2 →
      hexVal a3 = some x3 → hexVal b3 = some y3 →
      hexVal a4 = some x4 → hexVal b4 = some y4 →
      gatherk30 (pre ++ 58 ::
          [a0, b0, 32, a1, b1, 32, a2, b2, 32, a3, b3, 32, a4, b4]) =
        K30Res.crash "runtime error: index out of range") := by
  constructor
  · intro pre a0 b0 a1 b1 a2 b2 a3 b3 x0 y0 x1 y1 x2 y2 x3 y3
      hp h0 g0 h1 g1 h2 g2 h3 g3
    exact gatherk30_four_tokens hp h0 g0 h1 g1 h2 g2 h3 g3
  · intro pre a0 b0 a1 b1 a2 b2 a3 b3 a4 b4 x0 y0 x1 y1 x2 y2 x3 y3 x4 y4
      hp h0 g0 h1 g1 h2 g2 h3 g3 h4 g4
    exact gatherk30_five_tokens hp h0 g0 h1 g1 h2 g2 h3 g3 h4 g4

/-- C3 witness: frame desc:12 34 56 78 decodes to the little-endian
float32 of bytes 18 52 86 120, and the same frame with a fifth token 9a
panics with an out-of-range index. -/
theorem C3_witness :
    gatherk30 (str2bytes "desc:12 34 56 78") =
      K30Res.ok (Float32frombytes [18, 52, 86, 120]) ∧
    gatherk30 (str2bytes "desc:12 34 56 78 9a") =
      K30Res.crash "runtime error: index out of range" := by
  constructor
  · exact C3_exactly_four_tokens.1 (str2bytes "desc")
      49 50 51 52 53 54 55 56 1 2 3 4 5 6 7 8 (by decide)
      (by decide) (by decide) (by decide) (by decide)
      (by decide) (by decide) (by decide) (by decide)
  · exact C3_exactly_four_tokens.2 (str2bytes "desc")
      49 50 51 52 53 54 55 56 57 97 1 2 3 4 5 6 7 8 9 10 (by decide)
      (by decide) (by decide) (by decide) (by decide) (by decide)
      (by decide) (by decide) (by decide) (by decide) (by decide)

/-- A value stored in a telegraf field map: a float32 (by bit pattern),
a float64 (modelled exactly over ℚ), or a raw string (byte values). -/
inductive FieldVal where
  | f32bits (bits : Nat)
  | f64 (v : ℚ)
  | str (s : List Nat)
deriving DecidableEq

/-- One acc.AddFields call: measurement name, field map (in insertion
order; the keys used here are pairwise distinct), and tag map. -/
structure AddCall where
  measurement : String
  fields : List (String × FieldVal)
  tags : List (String × String)
deriving DecidableEq

/-- Outcome of one Gather cycle: a nil return, a returned non-nil error,
or a Go runtime panic that unwinds out of Gather. -/
inductive Outcome where
  | ok
  | err (msg : String)
  | crash (msg : String)
deriving DecidableEq

/-- One K30.Gather cycle after path resolution, parametrised by the
result of exe_cmd on the built command line (an error or the stdout
bytes): an exec error is returned with nothing emitted; otherwise
gatherk30 runs and, on success, emits the single co2 field with the
sensor tag, as the source does. -/
def k30Cycle (execResult : Except String (List Nat)) : Outcome × List AddCall :=
  match execResult with
  | Except.error e => (Outcome.err e, [])
  | Except.ok out =>
    match gatherk30 out with
    | K30Res.crash m => (Outcome.crash m, [])
    | K30Res.ok bits =>
      (Outcome.ok,
        [⟨"k30_reader", [("co2", FieldVal.f32bits bits)], [("sensor", "k30_co2")]⟩])

/-- The env variable name constants of k30_reader.go. -/
def GATT_TOOL : String := "GATTTOOL"

/-- MAC_ADDR constant of k30_reader.go. -/
def MAC_ADDR : String := "MACADDR"

/-- VAR_HANDLE constant of k30_reader.go. -/
def VAR_HANDLE : String := "VAR_HANDLE"

/-- GATT_FLAGS constant of k30_reader.go. -/
def GATT_FLAGS : String := "GATTFLAGS"

/-- proc of the source: return the environment value of env when it is
non-empty, else the env NAME itself. The path parameter is accepted and
ignored, exactly as in the source, where the compiled-in default
constants are never passed to it. getenv models os.Getenv over one
environment snapshot; an unset variable reads as the empty string. -/
def proc (getenv : String → String) (env path : String) : String :=
  if getenv env ≠ "" then getenv env else env

/-- The K30 plugin configuration struct (the toml-backed string fields
that loadPath touches). -/
structure K30 where
  CMD : String
  ADDR : String
  HANDLE : String
  FLAGS : String
deriving DecidableEq

/-- loadPath of the source: fill each still-empty config field from proc
and write the result back into the struct; loadPath passes the empty
string as the (ignored) path argument of proc. -/
def loadPath (getenv : String → String) (ns : K30) : K30 :=
  { CMD := if ns.CMD = "" then proc getenv GATT_TOOL "" else ns.CMD
    ADDR := if ns.ADDR = "" then proc getenv MAC_ADDR "" else ns.ADDR
    HANDLE := if ns.HANDLE = "" then proc getenv VAR_HANDLE "" else ns.HANDLE
    FLAGS := if ns.FLAGS = "" then proc getenv GATT_FLAGS "" else ns.FLAGS }

/-- The 3-argument parameter resolution the spec describes, realised by
the loadPath pattern of the source composed with proc. The built-in
default occupies the path parameter of proc, which the source ignores
(loadPath itself passes an empty string there and the default constants
are never referenced by the resolution code). -/
def resolve (configValue envName builtinDefault : String)
    (getenv : String → String) : String :=
  if configValue ≠ "" then configValue else proc getenv envName builtinDefault

/-- strings.Fields then parts[0] and parts[1:] of exe_cmd: none models
the out-of-range panic on an empty token list. -/
def exe_cmdSplit (cmd : List Nat) : Option (List Nat × List (List Nat)) :=
  match goFields cmd with
  | [] => none
  | h :: t => some (h, t)

/-- strings.Trim(s, newline) of the source: drop leading and trailing
newline bytes. -/
def trimNewlines (l : List Nat) : List Nat :=
  ((l.dropWhile (· == 10)).reverse.dropWhile (· == 10)).reverse

/-- Model of strconv.ParseFloat restricted to the non-negative decimal
integer strings that sysfs produces and the claims exercise: a non-empty
all-digit string parses to its value, anything else fails. -/
def parseGoFloat (l : List Nat) : Option ℚ :=
  if l ≠ [] ∧ l.all (fun b => decide (48 ≤ b ∧ b ≤ 57)) then
    some ((l.foldl (fun acc b => 10 * acc + (b - 48)) 0 : Nat) : ℚ)
  else none

/-- Final path segment, as strings.Split(f, slash) indexed at its last
element in the source; the split list is never empty. -/
def lastSeg (f : String) : String :=
  String.mk ((splitSep '/' f.toList).getLastD [])

/-- The Batt plugin configuration struct: the five sysfs file paths, in
the field order reflect.NumField iterates them. -/
structure Batt where
  BATSTAT : String
  BATVOLT : String
  BATCUR : String
  BATCAP : String
  BATHEAL : String
deriving DecidableEq

/-- The five path fields in struct order, as the reflection loop of
Batt.Gather visits them. -/
def battPaths (ns : Batt) : List String :=
  [ns.BATSTAT, ns.BATVOLT, ns.BATCUR, ns.BATCAP, ns.BATHEAL]

/-- The loop body of Batt.Gather over the path list: read the file (a
read error aborts the cycle), classify by the last path segment; status
and health store the raw content verbatim as a string; every other
segment is newline-trimmed and parsed as a float (a parse error aborts
the cycle), with the voltage_now value rescaled by (v / 10000) * 0.01
before storing. -/
def battLoop (fs : String → Option (List Nat)) :
    List String → List (String × FieldVal) →
      Except String (List (String × FieldVal))
  | [], metrics => Except.ok metrics
  | f :: rest, metrics =>
    match fs f with
    | none => Except.error "open: no such file or directory"
    | some b =>
      let stat := lastSeg f
      if stat = "status" ∨ stat = "health" then
        battLoop fs rest (metrics ++ [(stat, FieldVal.str b)])
      else
        match parseGoFloat (trimNewlines b) with
        | none => Except.error "strconv.ParseFloat: invalid syntax"
        | some v =>
          battLoop fs rest (metrics ++
            [(stat, FieldVal.f64 (if stat = "voltage_now" then v / 10000 * (1 / 100) else v))])

/-- Batt.Gather of the source, parametrised by a filesystem snapshot fs
mapping a path to its content (none models a read error): walk the five
configured paths; on the first error return it with nothing emitted,
otherwise emit one AddFields call with the battery measurement and
sensor tag. -/
def battGather (ns : Batt) (fs : String → Option (List Nat)) :
    Outcome × List AddCall :=
  match battLoop fs (battPaths ns) [] with
  | Except.error e => (Outcome.err e, [])
  | Except.ok m => (Outcome.ok, [⟨"battery", m, [("sensor", "battery")]⟩])

/-- The default sysfs path constants of pine_64.go. -/
def BATTSTATUS : String := "/sys/class/power_supply/battery/status"

/-- BATTVOLTAGE constant of pine_64.go. -/
def BATTVOLTAGE : String := "/sys/class/power_supply/battery/voltage_now"

/-- BATTCURRENT constant of pine_64.go. -/
def BATTCURRENT : String := "/sys/class/power_supply/battery/current_now"

/-- BATTCAPACITY constant of pine_64.go. -/
def BATTCAPACITY : String := "/sys/class/power_supply/battery/capacity"

/-- BATTHEALTH constant of pine_64.go. -/
def BATTHEALTH : String := "/sys/class/power_supply/battery/health"

/-- A Batt configured with the default sysfs paths. -/
def defaultBatt : Batt :=
  ⟨BATTSTATUS, BATTVOLTAGE, BATTCURRENT, BATTCAPACITY, BATTHEALTH⟩

/-- Filesystem snapshot built from a finite path-content table. -/
def fsOf (entries : List (String × List Nat)) : String → Option (List Nat) :=
  fun p => (entries.find? (fun e => e.1 == p)).map (fun e => e.2)

/-- Field list of the first emitted AddFields call of a cycle result. -/
def firstFields (r : Outcome × List AddCall) : List (String × FieldVal) :=
  match r.2 with
  | c :: _ => c.fields
  | [] => []

/-- A healthy default snapshot of the five battery files. -/
def chargingFs : String → Option (List Nat) :=
  fsOf [(BATTSTATUS, str2bytes "Charging\n"), (BATTVOLTAGE, str2bytes "4000000\n"),
        (BATTCURRENT, str2bytes "250\n"), (BATTCAPACITY, str2bytes "87\n"),
        (BATTHEALTH, str2bytes "Good\n")]

/-- The default snapshot with the status file content replaced by s. -/
def statusFs (s : List Nat) : String → Option (List Nat) :=
  fsOf [(BATTSTATUS, s), (BATTVOLTAGE, str2bytes "4000000\n"),
        (BATTCURRENT, str2bytes "250\n"), (BATTCAPACITY, str2bytes "87\n"),
        (BATTHEALTH, str2bytes "Good\n")]

/-- The default snapshot with the three numeric file contents replaced. -/
def numFs (sv sc scap : List Nat) : String → Option (List Nat) :=
  fsOf [(BATTSTATUS, str2bytes "Charging\n"), (BATTVOLTAGE, sv),
        (BATTCURRENT, sc), (BATTCAPACITY, scap),
        (BATTHEALTH, str2bytes "Good\n")]

/-- The default snapshot with an unparsable capacity file. -/
def badCapFs : String → Option (List Nat) :=
  fsOf [(BATTSTATUS, str2bytes "Charging\n"), (BATTVOLTAGE, str2bytes "4000000\n"),
        (BATTCURRENT, str2bytes "250\n"), (BATTCAPACITY, str2bytes "abc\n"),
        (BATTHEALTH, str2bytes "Good\n")]

/-- An environment snapshot where GATTTOOL is set to A. -/
def env1 : String → String := fun n => if n = "GATTTOOL" then "A" else ""

/-- An environment snapshot where GATTTOOL is set to B. -/
def env2 : String → String := fun n => if n = "GATTTOOL" then "B" else ""

lemma goFields_all_space : ∀ {l : List Nat},
    (∀ b ∈ l, isSpace b = true) → goFields l = [] := by
  intro l
  induction l with
  | nil => intro _; rfl
  | cons b rest ih =>
    intro h
    have hb := h b (List.mem_cons_self b rest)
    have hr : ∀ x ∈ rest, isSpace x = true :=
      fun x hx => h x (List.mem_cons_of_mem b hx)
    show fieldsAux (b :: rest) [] = []
    simp only [fieldsAux, hb, if_true]
    exact ih hr

lemma proc_ne_empty (getenv : String → String) {e : String} (p : String)
    (he : e ≠ "") : proc getenv e p ≠ "" := by
  unfold proc
  split_ifs with h
  · exact h
  · exact he

lemma filled_ne (getenv : String → String) {e : String} (c : String)
    (he : e ≠ "") : (if c = "" then proc getenv e "" else c) ≠ "" := by
  split_ifs with h
  · exact proc_ne_empty getenv "" he
  · exact h

/-- C4: one cycle of each collector, evaluated at the failure points the
claim covers. An exec error and a battery read or parse error are
returned with nothing emitted, as the claim says; but a decode failure
makes the K30 cycle PANIC out of Gather instead of returning an error
(still emitting nothing), so the returns-an-error half of the claim fails
for the decode step. -/
theorem C4_cycle_failure_behavior :
    k30Cycle (Except.error "exec: executable file not found") =
      (Outcome.err "exec: executable file not found", []) ∧
    k30Cycle (Except.ok (str2bytes ":ww 11 22 33")) =
      (Outcome.crash "encoding/hex: invalid byte or length", []) ∧
    battGather defaultBatt (fun _ => none) =
      (Outcome.err "open: no such file or directory", []) ∧
    battGather defaultBatt badCapFs =
      (Outcome.err "strconv.ParseFloat: invalid syntax", []) := by
  refine ⟨by decide, by decide, by decide, by decide⟩

/-- C6 counterexample: a status file containing Charging plus newline is
stored VERBATIM, newline included, not trimmed as the claim states. -/
theorem C6_counterexample :
    List.lookup "status" (firstFields (battGather defaultBatt chargingFs)) =
      some (FieldVal.str (str2bytes "Charging\n")) ∧
    str2bytes "Charging\n" ≠ str2bytes "Charging" := by
  exact ⟨rfl, by decide⟩

/-- C6 amended: the status (and health) contents are stored verbatim and
untrimmed, whatever the status file holds; the numeric half of the claim
does hold: a capacity file containing 87 plus newline yields the numeric
field capacity = 87. -/
theorem C6_status_stored_verbatim (s : List Nat) :
    battGather defaultBatt (statusFs s) =
      (Outcome.ok, [⟨"battery",
        [("status", FieldVal.str s),
         ("voltage_now", FieldVal.f64 4),
         ("current_now", FieldVal.f64 250),
         ("capacity", FieldVal.f64 87),
         ("health", FieldVal.str (str2bytes "Good\n"))],
        [("sensor", "battery")]⟩]) := by
  have h : battGather defaultBatt (statusFs s) =
      (Outcome.ok, [⟨"battery",
        [("status", FieldVal.str s),
         ("voltage_now", FieldVal.f64 (((4000000 : Nat) : ℚ) / 10000 * (1 / 100))),
         ("current_now", FieldVal.f64 ((250 : Nat) : ℚ)),
         ("capacity", FieldVal.f64 ((87 : Nat) : ℚ)),
         ("health", FieldVal.str (str2bytes "Good\n"))],
        [("sensor", "battery")]⟩]) := rfl
  rw [h]
  norm_num

/-- C6 witness: the amended statement at the content Charging plus
newline; the stored status field keeps the newline. -/
theorem C6_witness :
    battGather defaultBatt (statusFs (str2bytes "Charging\n")) =
      (Outcome.ok, [⟨"battery",
        [("status", FieldVal.str (str2bytes "Charging\n")),
         ("voltage_now", FieldVal.f64 4),
         ("current_now", FieldVal.f64 250),
         ("capacity", FieldVal.f64 87),
         ("health", FieldVal.str (str2bytes "Good\n"))],
        [("sensor", "battery")]⟩]) :=
  C6_status_stored_verbatim (str2bytes "Charging\n")

/-- C7: for any parsable numeric contents, the voltage_now value is
stored as exactly (v / 10000) * 0.01 (0.01 modelled exactly as 1/100)
while current_now and capacity are stored exactly as parsed, with no
conversion. -/
theorem C7_voltage_conversion (sv sc scap : List Nat) (vv vc vcap : ℚ)
    (hv : parseGoFloat (trimNewlines sv) = some vv)
    (hc : parseGoFloat (trimNewlines sc) = some vc)
    (hcap : parseGoFloat (trimNewlines scap) = some vcap) :
    battGather defaultBatt (numFs sv sc scap) =
      (Outcome.ok, [⟨"battery",
        [("status", FieldVal.str (str2bytes "Charging\n")),
         ("voltage_now", FieldVal.f64 (vv / 10000 * (1 / 100))),
         ("current_now", FieldVal.f64 vc),
         ("capacity", FieldVal.f64 vcap),
         ("health", FieldVal.str (str2bytes "Good\n"))],
        [("sensor", "battery")]⟩]) := by
  have e2 : numFs sv sc scap BATTVOLTAGE = some sv := rfl
  have e3 : numFs sv sc scap BATTCURRENT = some sc := rfl
  have e4 : numFs sv sc scap BATTCAPACITY = some scap := rfl
  have ls1 : lastSeg BATTSTATUS = "status" := rfl
  have ls2 : lastSeg BATTVOLTAGE = "voltage_now" := rfl
  have ls3 : lastSeg BATTCURRENT = "current_now" := rfl
  have ls4 : lastSeg BATTCAPACITY = "capacity" := rfl
  have ls5 : lastSeg BATTHEALTH = "health" := rfl
  simp +decide only [battGather, battPaths, defaultBatt, battLoop, e2, e3, e4,
    ls1, ls2, ls3, ls4, ls5, hv, hc, hcap]
  rfl

/-- C7 witness: raw voltage 4000000 is stored as 4, raw current 250 and
raw capacity 87 are stored unchanged. -/
theorem C7_witness :
    battGather defaultBatt
        (numFs (str2bytes "4000000\n") (str2bytes "250\n") (str2bytes "87\n")) =
      (Outcome.ok, [⟨"battery",
        [("status", FieldVal.str (str2bytes "Charging\n")),
         ("voltage_now", FieldVal.f64 4),
         ("current_now", FieldVal.f64 250),
         ("capacity", FieldVal.f64 87),
         ("health", FieldVal.str (str2bytes "Good\n"))],
        [("sensor", "battery")]⟩]) := by
  have h := C7_voltage_conversion (str2bytes "4000000\n") (str2bytes "250\n")
    (str2bytes "87\n") ((4000000 : Nat) : ℚ) ((250 : Nat) : ℚ) ((87 : Nat) : ℚ)
    rfl rfl rfl
  rw [h]
  norm_num

/-- C8 counterexample: with everything empty and an empty environment the
resolution returns the empty env name, not the built-in default; the
default parameter is ignored, as proc of the source ignores it. -/
theorem C8_counterexample :
    resolve "" "" "default" (fun _ => "") = "" ∧ ("" : String) ≠ "default" := by
  exact ⟨rfl, by decide⟩

/-- C8 amended: an explicit config value always wins; with no config
value the env value is used when set; when the env variable is unset the
env NAME itself is returned (for the empty env name that is the empty
string), and the built-in default argument is never consulted. -/
theorem C8_resolution :
    (∀ (d : String) (g : String → String), g "" = "" → resolve "" "" d g = "") ∧
    (∀ (d : String) (g : String → String),
      g "ENVX" = "" → resolve "" "ENVX" d g = "ENVX") ∧
    (∀ (c e d : String) (g : String → String), c ≠ "" → resolve c e d g = c) := by
  refine ⟨?_, ?_, ?_⟩
  · intro d g hg
    simp [resolve, proc, hg]
  · intro d g hg
    simp [resolve, proc, hg]
  · intro c e d g hc
    simp [resolve, hc]

/-- C8 witness: the three amended cases at concrete arguments over the
empty environment. -/
theorem C8_witness :
    resolve "" "" "deflt" (fun _ => "") = "" ∧
    resolve "" "ENVX" "deflt" (fun _ => "") = "ENVX" ∧
    resolve "explicit" "ENVX" "deflt" (fun _ => "") = "explicit" :=
  ⟨C8_resolution.1 "deflt" (fun _ => "") rfl,
   C8_resolution.2.1 "deflt" (fun _ => "") rfl,
   C8_resolution.2.2 "explicit" "ENVX" "deflt" (fun _ => "") (by decide)⟩

/-- C9 counterexample: starting from an empty config, the first cycle
resolves CMD to A from the first environment; after the environment
changes GATTTOOL to B, the next cycle still uses A, because loadPath
wrote A back into the struct. -/
theorem C9_counterexample :
    (loadPath env2 (loadPath env1 ⟨"", "", "", ""⟩)).CMD = "A" ∧
    env2 GATT_TOOL = "B" ∧ ("A" : String) ≠ "B" := by
  exact ⟨rfl, rfl, by decide⟩

/-- C9 amended: loadPath runs every K30 Gather cycle but only fills
fields that are still empty and writes the results back into the plugin
struct, and every field it writes is non-empty; hence a second resolution
under ANY later environment is a no-op, and environment changes between
cycles are never reflected. (Batt.Gather never calls loadPath at all.) -/
theorem C9_loadPath_caches (g1 g2 : String → String) (ns : K30) :
    loadPath g2 (loadPath g1 ns) = loadPath g1 ns := by
  obtain ⟨c, a, hd, fl⟩ := ns
  simp only [loadPath, K30.mk.injEq]
  refine ⟨?_, ?_, ?_, ?_⟩ <;>
    exact if_neg (filled_ne g1 _ (by decide))

/-- C9 witness: the amended statement at the two concrete environments of
the counterexample. -/
theorem C9_witness :
    loadPath env2 (loadPath env1 ⟨"", "", "", ""⟩) =
      loadPath env1 ⟨"", "", "", ""⟩ :=
  C9_loadPath_caches env1 env2 ⟨"", "", "", ""⟩

/-- C10: the head indexing of exe_cmd is in bounds exactly when the
command string holds at least one non-whitespace token: with a token
present the split succeeds, and on an all-whitespace (or empty) command
strings.Fields is empty and parts[0] is out of range (modelled none). -/
theorem C10_exe_cmd_head :
    (∀ cmd : List Nat, goFields cmd ≠ [] → (exe_cmdSplit cmd).isSome = true) ∧
    (∀ cmd : List Nat, (∀ b ∈ cmd, isSpace b = true) → exe_cmdSplit cmd = none) := by
  constructor
  · intro cmd h
    unfold exe_cmdSplit
    cases hf : goFields cmd with
    | nil => exact absurd hf h
    | cons a t => rfl
  · intro cmd h
    unfold exe_cmdSplit
    rw [goFields_all_space h]

/-- C10 witness: a real command line splits into a head and arguments; a
whitespace-only command line hits the out-of-range index. -/
theorem C10_witness :
    (exe_cmdSplit (str2bytes "gatttool -b AA")).isSome = true ∧
    exe_cmdSplit (str2bytes "   ") = none :=
  ⟨C10_exe_cmd_head.1 (str2bytes "gatttool -b AA") (by decide),
   C10_exe_cmd_head.2 (str2bytes "   ") (by decide)⟩

end Telegraf
